import Mathlib

/-!
Verification of the client-side conversation/streaming engine and
suggested-query pipeline of the krushimitra chat assistant.

The embedding below follows the TypeScript sources:
  * `useChatAPI.sendMessage` (stream read loop, tag switch, final assembly),
  * `useChat.handleSubmit`,
  * `useChatThreads` (src/hooks/use-chat-threads.ts),
  * `useSuggestedQueries` (src/hooks/use-suggested-queries.ts).

JavaScript runtime primitives used by that code (JSON.parse, string
truthiness, strict equality, UTF-16 code units) are modelled explicitly.
-/

/-! ## JSON values (the result of JSON.parse) -/

/-- A JSON value as produced by `JSON.parse`.  Numbers are modelled as exact
rationals (JSON numeric literals are decimal; the stream payloads stay far
below the range where IEEE-754 rounding could distinguish values). -/
inductive JVal where
  | jnull
  | jbool (b : Bool)
  | jnum (q : Rat)
  | jstr (s : String)
  | jarr (elems : List JVal)
  | jobj (fields : List (String × JVal))

/-- JavaScript truthiness of a value. -/
def truthy : JVal → Bool
  | JVal.jnull => false
  | JVal.jbool b => b
  | JVal.jnum q => !(q = 0 : Bool)
  | JVal.jstr s => !(s = "" : Bool)
  | JVal.jarr _ => true
  | JVal.jobj _ => true

/-- JavaScript strict equality (`===`) between two parsed values.  Objects and
arrays compare by reference; every value compared here comes from a fresh
`JSON.parse` of a distinct line, so two object/array values are never
reference-equal and `===` on them is `false`. -/
def jsEq : JVal → JVal → Bool
  | JVal.jnull, JVal.jnull => true
  | JVal.jbool a, JVal.jbool b => a == b
  | JVal.jnum a, JVal.jnum b => a == b
  | JVal.jstr a, JVal.jstr b => a == b
  | _, _ => false

/-- Property access `v.k` on a parsed value: defined for objects (duplicate
keys resolve to the last occurrence, as in `JSON.parse`), `none` (i.e.
`undefined`, hence falsy) otherwise. -/
def getField (v : JVal) (k : String) : Option JVal :=
  match v with
  | JVal.jobj fs => (fs.reverse.find? (fun kv => kv.1 == k)).map (fun kv => kv.2)
  | _ => none

/-- Truthiness of `v.k` (missing property is `undefined`, which is falsy). -/
def fieldTruthy (v : JVal) (k : String) : Bool :=
  match getField v k with
  | some x => truthy x
  | none => false

/-- Template-literal rendering of a value (the semantics of `String(x)` /
interpolation).  Decimal rendering of non-integral numbers is abstracted; it
only ever reaches transient progress-message text. -/
def jsShow : JVal → String
  | JVal.jnull => "null"
  | JVal.jbool true => "true"
  | JVal.jbool false => "false"
  | JVal.jstr s => s
  | JVal.jnum q => if q.den = 1 then toString q.num else toString q
  | JVal.jarr l => String.intercalate "," (l.map jsShowElem)
  | JVal.jobj _ => "[object Object]"
where
  jsShowElem : JVal → String
    | JVal.jnull => ""
    | JVal.jbool true => "true"
    | JVal.jbool false => "false"
    | JVal.jstr s => s
    | JVal.jnum q => if q.den = 1 then toString q.num else toString q
    | JVal.jarr _ => ""
    | JVal.jobj _ => "[object Object]"

/-! ## JSON.parse -/

/-- JSON whitespace skipping (space, tab, line feed, carriage return). -/
def skipWs : List Char → List Char
  | c :: r => if c = ' ' ∨ c = '\t' ∨ c = '\n' ∨ c = '\r' then skipWs r else c :: r
  | [] => []

def hexDigitVal (c : Char) : Option Nat :=
  if '0' ≤ c ∧ c ≤ '9' then some (c.toNat - '0'.toNat)
  else if 'a' ≤ c ∧ c ≤ 'f' then some (c.toNat - 'a'.toNat + 10)
  else if 'A' ≤ c ∧ c ≤ 'F' then some (c.toNat - 'A'.toNat + 10)
  else none

/-- Body of a JSON string literal (after the opening quote).  Handles the
standard escapes; raw control characters are rejected as in `JSON.parse`.
Astral `\u` surrogate pairs are combined; a lone surrogate (unrepresentable
in Lean `Char`) degrades to U+FFFD, which no claim's input exercises. -/
def pStringBody (fuel : Nat) (acc : List Char) (cs : List Char) : Option (String × List Char) :=
  match fuel with
  | 0 => none
  | fuel + 1 =>
    match cs with
    | [] => none
    | c :: r =>
      if c = '"' then some (String.mk acc.reverse, r)
      else if c = '\\' then
        match r with
        | [] => none
        | e :: r2 =>
          if e = '"' then pStringBody fuel ('"' :: acc) r2
          else if e = '\\' then pStringBody fuel ('\\' :: acc) r2
          else if e = '/' then pStringBody fuel ('/' :: acc) r2
          else if e = 'b' then pStringBody fuel (Char.ofNat 8 :: acc) r2
          else if e = 'f' then pStringBody fuel (Char.ofNat 12 :: acc) r2
          else if e = 'n' then pStringBody fuel ('\n' :: acc) r2
          else if e = 'r' then pStringBody fuel ('\r' :: acc) r2
          else if e = 't' then pStringBody fuel ('\t' :: acc) r2
          else if e = 'u' then
            match r2 with
            | a :: b :: c2 :: d :: r3 =>
              match hexDigitVal a, hexDigitVal b, hexDigitVal c2, hexDigitVal d with
              | some ha, some hb, some hc, some hd =>
                let code := ((ha * 16 + hb) * 16 + hc) * 16 + hd
                if 0xD800 ≤ code ∧ code ≤ 0xDBFF then
                  match r3 with
                  | '\\' :: 'u' :: a2 :: b2 :: c3 :: d2 :: r4 =>
                    match hexDigitVal a2, hexDigitVal b2, hexDigitVal c3, hexDigitVal d2 with
                    | some ha2, some hb2, some hc2, some hd2 =>
                      let lo := ((ha2 * 16 + hb2) * 16 + hc2) * 16 + hd2
                      if 0xDC00 ≤ lo ∧ lo ≤ 0xDFFF then
                        pStringBody fuel
                          (Char.ofNat (0x10000 + (code - 0xD800) * 0x400 + (lo - 0xDC00)) :: acc) r4
                      else pStringBody fuel (Char.ofNat 0xFFFD :: acc) r3
                    | _, _, _, _ => pStringBody fuel (Char.ofNat 0xFFFD :: acc) r3
                  | _ => pStringBody fuel (Char.ofNat 0xFFFD :: acc) r3
                else pStringBody fuel (Char.ofNat code :: acc) r3
              | _, _, _, _ => none
            | _ => none
          else none
      else if c.toNat < 0x20 then none
      else pStringBody fuel (c :: acc) r

def digitsToNat (ds : List Char) : Nat :=
  ds.foldl (fun a c => a * 10 + (c.toNat - '0'.toNat)) 0

/-- JSON number literal (optional minus, integer part without leading zeros,
optional fraction, optional exponent), as an exact rational. -/
def pNumber (cs : List Char) : Option (JVal × List Char) :=
  let (neg, cs1) :=
    match cs with
    | '-' :: r => (true, r)
    | _ => (false, cs)
  match cs1 with
  | [] => none
  | c :: r =>
    if ¬ c.isDigit then none
    else
      let (ipart, rest) :=
        if c = '0' then ((0 : Nat), r)
        else
          let ds := (c :: r).takeWhile Char.isDigit
          (digitsToNat ds, (c :: r).drop ds.length)
      let (fnum, fden, rest2) :=
        match rest with
        | '.' :: r2 =>
          let fds := r2.takeWhile Char.isDigit
          if fds.isEmpty then (0, 0, rest)  -- marker: fden = 0 signals a malformed fraction
          else (digitsToNat fds, fds.length, r2.drop fds.length)
        | _ => (0, 1, rest)
      if fden = 0 then none
      else
        let (expOk, expNeg, expVal, rest3) :=
          match rest2 with
          | e :: r3 =>
            if e = 'e' ∨ e = 'E' then
              let (en, r4) :=
                match r3 with
                | '+' :: r5 => (false, r5)
                | '-' :: r5 => (true, r5)
                | _ => (false, r3)
              let eds := r4.takeWhile Char.isDigit
              if eds.isEmpty then (false, false, 0, rest2)
              else (true, en, digitsToNat eds, r4.drop eds.length)
            else (true, false, 0, rest2)
          | [] => (true, false, 0, rest2)
        if ¬ expOk then none
        else
          let mag : Rat := (ipart : Rat) + (fnum : Rat) / ((10 : Rat) ^ fden)
          let mag := if expNeg then mag / (10 : Rat) ^ expVal else mag * (10 : Rat) ^ expVal
          some (JVal.jnum (if neg then -mag else mag), rest3)

mutual

/-- Recursive-descent JSON value parser (fuelled; the fuel passed at top level
dominates the recursion depth of any input). -/
def pVal (fuel : Nat) (cs : List Char) : Option (JVal × List Char) :=
  match fuel with
  | 0 => none
  | fuel + 1 =>
    match skipWs cs with
    | [] => none
    | c :: r =>
      if c = '"' then
        match pStringBody (r.length + 1) [] r with
        | some (s, rest) => some (JVal.jstr s, rest)
        | none => none
      else if c = 't' then
        match r with
        | 'r' :: 'u' :: 'e' :: rest => some (JVal.jbool true, rest)
        | _ => none
      else if c = 'f' then
        match r with
        | 'a' :: 'l' :: 's' :: 'e' :: rest => some (JVal.jbool false, rest)
        | _ => none
      else if c = 'n' then
        match r with
        | 'u' :: 'l' :: 'l' :: rest => some (JVal.jnull, rest)
        | _ => none
      else if c = '-' ∨ c.isDigit then pNumber (c :: r)
      else if c = '[' then
        match skipWs r with
        | ']' :: rest => some (JVal.jarr [], rest)
        | r1 =>
          match pVal fuel r1 with
          | some (v, r2) => pArrRest fuel [v] r2
          | none => none
      else if c.toNat = 123 then  -- opening brace
        match skipWs r with
        | r1 =>
          match r1 with
          | c2 :: rest =>
            if c2.toNat = 125 then some (JVal.jobj [], rest)  -- closing brace
            else
              match pMember fuel r1 with
              | some (kv, r2) => pObjRest fuel [kv] r2
              | none => none
          | [] => none
      else none

/-- Remaining elements of an array after the first: `, value`* then `]`. -/
def pArrRest (fuel : Nat) (acc : List JVal) (cs : List Char) : Option (JVal × List Char) :=
  match fuel with
  | 0 => none
  | fuel + 1 =>
    match skipWs cs with
    | ']' :: rest => some (JVal.jarr acc.reverse, rest)
    | ',' :: r =>
      match pVal fuel r with
      | some (v, r2) => pArrRest fuel (v :: acc) r2
      | none => none
    | _ => none

/-- One `"key" : value` member of an object. -/
def pMember (fuel : Nat) (cs : List Char) : Option ((String × JVal) × List Char) :=
  match fuel with
  | 0 => none
  | fuel + 1 =>
    match skipWs cs with
    | '"' :: r =>
      match pStringBody (r.length + 1) [] r with
      | some (k, r2) =>
        match skipWs r2 with
        | ':' :: r3 =>
          match pVal fuel r3 with
          | some (v, r4) => some ((k, v), r4)
          | none => none
        | _ => none
      | none => none
    | _ => none

/-- Remaining members of an object after the first: `, member`* then `}`. -/
def pObjRest (fuel : Nat) (acc : List (String × JVal)) (cs : List Char) : Option (JVal × List Char) :=
  match fuel with
  | 0 => none
  | fuel + 1 =>
    match skipWs cs with
    | c :: rest =>
      if c.toNat = 125 then some (JVal.jobj acc.reverse, rest)  -- closing brace
      else if c = ',' then
        match pMember fuel rest with
        | some (kv, r2) => pObjRest fuel (kv :: acc) r2
        | none => none
      else none
    | [] => none

end

/-- `JSON.parse`: parses the whole string (modulo surrounding whitespace) or
fails — `JSON.parse` throws on any trailing garbage. -/
def jsonParse (s : String) : Option JVal :=
  let cs := s.toList
  match pVal (cs.length + 2) cs with
  | some (v, rest) => if skipWs rest = [] then some v else none
  | none => none

/-! ## JavaScript string helpers used by the hooks -/

/-- The whitespace class of `String.prototype.trim`. -/
def jsWsChar (c : Char) : Bool :=
  c = ' ' || c = '\t' || c = '\n' || c = '\r' || c.toNat = 0xb || c.toNat = 0xc ||
  c.toNat = 0xa0 || c.toNat = 0xfeff || c.toNat = 0x2028 || c.toNat = 0x2029

/-- `s.trim()`. -/
def jsTrim (s : String) : String :=
  String.mk (((s.toList.dropWhile jsWsChar).reverse.dropWhile jsWsChar).reverse)

/-- `s.split('\n')`. -/
def splitNl (s : String) : List String :=
  splitNlGo s.toList []
where
  splitNlGo : List Char → List Char → List String
    | [], acc => [String.mk acc.reverse]
    | c :: r, acc =>
      if c = '\n' then String.mk acc.reverse :: splitNlGo r []
      else splitNlGo r (c :: acc)

/-- `s.toLowerCase()`, at ASCII granularity (the keyword probes below are
ASCII or caseless Devanagari, where this coincides with the JS fold). -/
def jsToLower (s : String) : String :=
  String.mk (s.toList.map Char.toLower)

/-- Whether `hay` starts with `needle`. -/
def startsWithChars : List Char → List Char → Bool
  | [], _ => true
  | _ :: _, [] => false
  | a :: as, b :: bs => a == b && startsWithChars as bs

def includesChars (needle : List Char) : List Char → Bool
  | [] => needle.isEmpty
  | c :: r => startsWithChars needle (c :: r) || includesChars needle r

/-- `haystack.includes(needle)`. -/
def strIncludes (hay needle : String) : Bool :=
  includesChars needle.toList hay.toList

/-- The UTF-16 code units of a string (what `charCodeAt` / `.length` see). -/
def utf16Units (s : String) : List Nat :=
  s.toList.flatMap (fun c =>
    let n := c.toNat
    if n < 0x10000 then [n]
    else [0xD800 + (n - 0x10000) / 0x400, 0xDC00 + (n - 0x10000) % 0x400])

/-! ## Chat data model (use-chat-messages shapes, as used by the hooks) -/

inductive Role where
  | user
  | assistant
deriving DecidableEq, BEq

inductive ToolStatus where
  | pending
  | completed
  | error
deriving DecidableEq, BEq

/-- A `ToolCall` of the streaming state.  `id` and `name` hold whatever the
parsed line carried (the code only requires them truthy). -/
structure ToolCall where
  id : JVal
  name : JVal
  args : JVal
  result : Option JVal
  status : ToolStatus

/-- A message `part`. -/
inductive MsgPart where
  | text (t : String)
  | image (imageData imageName imageType : String)
  | toolCallPart (toolName : JVal) (toolArgs : JVal) (toolCallId : JVal)
  | toolResultPart (toolResult : JVal) (toolCallId : JVal)

/-- A `ChatMessage`.  The `Date.now()`-derived `id` string is a clock
artifact irrelevant to every property below and is omitted. -/
structure ChatMsg where
  role : Role
  content : String
  parts : List MsgPart

/-- Request/turn status of the message store. -/
inductive Status where
  | idle
  | submitted
  | streaming
  | error
deriving DecidableEq, BEq

/-! ## StreamParser (useChatAPI.sendMessage read loop) -/

/-- The streaming state visible to the UI merged with the loop's local
accumulators (`fullResponse` mirrors `finalResponse`, `currentToolCalls`
mirrors `toolCalls` — the code keeps them in lock step). -/
structure PState where
  currentStep : String
  toolCalls : List ToolCall
  reasoning : List String
  finalResponse : String

/-- The state installed just before the request is dispatched. -/
def initPState : PState :=
  { currentStep := "Connecting...", toolCalls := [], reasoning := [], finalResponse := "" }

/-- `findIndex` + in-place mutation at that index: update the first element
satisfying `p` (only), leave the rest untouched. -/
def updateFirst (p : α → Bool) (f : α → α) : List α → List α
  | [] => []
  | x :: xs => if p x then f x :: xs else x :: updateFirst p f xs

/-- The `switch (prefix)` of the read loop: the effect of one parsed line on
the streaming state. -/
def applyTag (s : PState) (tag : String) (p : JVal) : PState :=
  if tag = "f" then
    match getField p "messageId" with
    | some mid => if truthy mid then { s with currentStep := "Step: " ++ jsShow mid } else s
    | none => s
  else if tag = "b" then
    match getField p "toolCallId", getField p "toolName" with
    | some cid, some tn =>
      if truthy cid && truthy tn then
        { s with currentStep := "Calling tool: " ++ jsShow tn,
                 toolCalls := s.toolCalls ++ [⟨cid, tn, JVal.jobj [], none, ToolStatus.pending⟩] }
      else s
    | _, _ => s
  else if tag = "c" then
    match getField p "toolCallId", getField p "argsTextDelta" with
    | some cid, some d =>
      if truthy cid && truthy d then
        match s.toolCalls.find? (fun t => jsEq t.id cid) with
        | some tc => { s with currentStep := "Building arguments for " ++ jsShow tc.name ++ "..." }
        | none => s
      else s
    | _, _ => s
  else if tag = "9" then
    match getField p "toolCallId", getField p "args" with
    | some cid, some av =>
      if truthy cid && truthy av then
        match s.toolCalls.find? (fun t => jsEq t.id cid) with
        | some tc =>
          { s with currentStep := "Executing " ++ jsShow tc.name ++ "...",
                   toolCalls := updateFirst (fun t => jsEq t.id cid)
                     (fun t => { t with args := av }) s.toolCalls }
        | none => s
      else s
    | _, _ => s
  else if tag = "a" then
    match getField p "toolCallId", getField p "result" with
    | some cid, some rv =>
      if truthy cid && truthy rv then
        match s.toolCalls.find? (fun t => jsEq t.id cid) with
        | some tc =>
          { s with currentStep := jsShow tc.name ++ " completed",
                   toolCalls := updateFirst (fun t => jsEq t.id cid)
                     (fun t => { t with result := some rv, status := ToolStatus.completed }) s.toolCalls }
        | none => s
      else s
    | _, _ => s
  else if tag = "0" then
    match p with
    | JVal.jstr t =>
      { s with currentStep := "Generating response...", finalResponse := s.finalResponse ++ t }
    | _ => s
  else if tag = "e" then
    match getField p "finishReason" with
    | some fr => if truthy fr then { s with currentStep := "Step finished: " ++ jsShow fr } else s
    | none => s
  else if tag = "d" then
    match getField p "finishReason" with
    | some fr => if truthy fr then { s with currentStep := "Complete!" } else s
    | none => s
  else s

/-- Splits a raw line into its tag and parsed JSON payload exactly as the
loop body does: skip blank lines, require a colon at index > 0, `JSON.parse`
the remainder (a parse exception skips the line). -/
def lineTagPayload (line : String) : Option (String × JVal) :=
  if jsTrim line = "" then none
  else
    let cs := line.toList
    let i := cs.findIdx (fun c => c = ':')
    if 0 < i ∧ i < cs.length then
      match jsonParse (String.mk (cs.drop (i + 1))) with
      | some p => some (String.mk (cs.take i), p)
      | none => none
    else none

/-- Processing of one line of a chunk. -/
def processLine (s : PState) (line : String) : PState :=
  match lineTagPayload line with
  | some (t, p) => applyTag s t p
  | none => s

def processLines (s : PState) (lines : List String) : PState :=
  lines.foldl processLine s

/-- Processing of one decoded chunk: `chunk.split('\n')`, then each line in
order.  No partial-line buffer is carried to the next chunk. -/
def processChunk (s : PState) (chunk : String) : PState :=
  processLines s (splitNl chunk)

/-- The full read loop over a sequence of decoded chunks. -/
def processStream (chunks : List String) : PState :=
  chunks.foldl processChunk initPState

/-- The parts of the final assistant message (tool-call part, then its
tool-result part when a truthy result was recorded, per tool call in order,
then the final text when non-blank). -/
def assembleParts (s : PState) : List MsgPart :=
  (s.toolCalls.flatMap (fun tc =>
    [MsgPart.toolCallPart tc.name tc.args tc.id] ++
    (match tc.result with
     | some r => if truthy r then [MsgPart.toolResultPart r tc.id] else []
     | none => []))) ++
  (if jsTrim s.finalResponse = "" then [] else [MsgPart.text s.finalResponse])

/-- Final assembly after a normal stream end: the assistant message is
appended only when some text or tool call was accumulated. -/
def assembledMessage (s : PState) : Option ChatMsg :=
  if jsTrim s.finalResponse = "" && s.toolCalls.isEmpty then none
  else some { role := Role.assistant, content := s.finalResponse, parts := assembleParts s }

/-- How the read loop ends: `done = true` from the reader, or a rejected
`reader.read()` (network-level failure) that throws into the inner catch. -/
inductive StreamEnd where
  | done
  | failed

/-- The streaming phase of `sendMessage`, from `setStatus('streaming')` on:
the chunks delivered before the end are parsed in order; on `done` the status
becomes `idle` and the assembled message (if any) is appended; a read failure
jumps to the inner catch, which only sets the status to `error` — the
assembly block is skipped. -/
def streamTurn (chunks : List String) (ending : StreamEnd) : Status × PState × Option ChatMsg :=
  let s := processStream chunks
  match ending with
  | StreamEnd.done => (Status.idle, s, assembledMessage s)
  | StreamEnd.failed => (Status.error, s, none)

/-! ## useChat.handleSubmit -/

/-- A staged image attachment (only its presence matters to the guard). -/
structure ImageFile where
  name : String
  data : String
  type : String

/-- Whether `handleSubmit` dispatches `sendMessage`: the guard is
`(input.trim() || selectedImages.length > 0) && status !== 'streaming'`. -/
def handleSubmitDispatches (input : String) (selectedImages : List ImageFile) (status : Status) : Bool :=
  (!(jsTrim input = "" : Bool) || !selectedImages.isEmpty) && !(status == Status.streaming)

/-! ## ThreadStore (src/hooks/use-chat-threads.ts) -/

/-- A persisted conversation thread. -/
structure ChatThread where
  id : String
  title : String
  messages : List ChatMsg
  createdAt : String
  updatedAt : String

/-- The hook's state.  Timestamps and fresh ids (`Date.now()`-derived) are
passed in explicitly. -/
structure ThreadsState where
  currentThreadId : String
  chatThreads : List ChatThread
  showThreadsList : Bool
  isPendingNewThread : Bool

/-- The state after mounting with no saved threads. -/
def threadsInit : ThreadsState :=
  { currentThreadId := "", chatThreads := [], showThreadsList := false, isPendingNewThread := true }

/-- Title derivation: the first message's content, truncated to 50 units plus
an ellipsis (`.length`/`slice` act on UTF-16 units; code-point granularity is
used here, which coincides on the BMP content this app handles). -/
def titleFor (content : String) : String :=
  if (utf16Units content).length > 50 then String.mk (content.toList.take 50) ++ "..."
  else content

/-- `createNewThread`: enter the pending state without touching the list. -/
def createNewThread (s : ThreadsState) : ThreadsState :=
  { s with currentThreadId := "", isPendingNewThread := true }

/-- `createActualThread`: materialize a thread (at the head of the list) from
an optional first message. -/
def createActualThread (s : ThreadsState) (firstMessage : Option ChatMsg)
    (newThreadId nowIso : String) : ThreadsState :=
  let title :=
    match firstMessage with
    | some m => if m.content = "" then "New Chat" else titleFor m.content
    | none => "New Chat"
  let newThread : ChatThread :=
    { id := newThreadId, title := title,
      messages := match firstMessage with | some m => [m] | none => [],
      createdAt := nowIso, updatedAt := nowIso }
  { s with chatThreads := newThread :: s.chatThreads,
           currentThreadId := newThreadId, isPendingNewThread := false }

/-- `switchToThread`: soft-fails with `none` on an unknown id. -/
def switchToThread (s : ThreadsState) (threadId : String) : ThreadsState × Option ChatThread :=
  match s.chatThreads.find? (fun t => t.id == threadId) with
  | some t =>
    ({ s with currentThreadId := threadId, showThreadsList := false, isPendingNewThread := false },
     some t)
  | none => (s, none)

/-- `deleteThread`: filter the thread out; when it was current, the head of
the remaining list becomes current (or the pending-empty state when none
remain). -/
def deleteThread (s : ThreadsState) (threadId : String) : ThreadsState × Option ChatThread :=
  let updated := s.chatThreads.filter (fun t => t.id != threadId)
  if threadId = s.currentThreadId then
    match updated with
    | t :: _ =>
      ({ s with chatThreads := updated, currentThreadId := t.id, isPendingNewThread := false },
       some t)
    | [] =>
      ({ s with chatThreads := [], currentThreadId := "", isPendingNewThread := true }, none)
  else ({ s with chatThreads := updated }, none)

/-- `updateCurrentThread`: with a non-empty message list, either materialize
the pending thread from the first message, or replace the current thread's
messages and refresh its title/`updatedAt`. -/
def updateCurrentThread (s : ThreadsState) (messages : List ChatMsg)
    (newThreadId nowIso : String) : ThreadsState :=
  match messages with
  | [] => s
  | m :: _ =>
    if s.isPendingNewThread then createActualThread s (some m) newThreadId nowIso
    else if s.currentThreadId = "" then s
    else
      { s with chatThreads := s.chatThreads.map (fun thread =>
          if thread.id == s.currentThreadId then
            { thread with messages := messages, updatedAt := nowIso,
                          title := if m.content = "" then "New Chat" else titleFor m.content }
          else thread) }

/-- `clearCurrentThread`: empty the current thread's messages in place. -/
def clearCurrentThread (s : ThreadsState) (nowIso : String) : ThreadsState :=
  if s.currentThreadId = "" then s
  else
    { s with chatThreads := s.chatThreads.map (fun thread =>
        if thread.id == s.currentThreadId then
          { thread with messages := [], title := "New Chat", updatedAt := nowIso }
        else thread) }

/-- `importThreads`, success path (the parsed payload was an array): prepend
the imported records. -/
def importThreadsArray (s : ThreadsState) (imported : List ChatThread) : ThreadsState :=
  { s with chatThreads := imported ++ s.chatThreads }

/-- The persist effect (lines 46-54): whenever the list is non-empty, the
entire `chatThreads` array is written to `farm-chat-threads`, with no
filtering.  `none` means no write happens. -/
def persistWrite (threads : List ChatThread) : Option (List ChatThread) :=
  if threads.isEmpty then none else some threads

/-- Lexicographic order on code points (the order `<` uses on JS strings;
ISO-8601 timestamps sort chronologically under it). -/
def charsLt : List Char → List Char → Bool
  | [], [] => false
  | [], _ :: _ => true
  | _ :: _, [] => false
  | a :: as, b :: bs =>
    if a.toNat < b.toNat then true
    else if b.toNat < a.toNat then false
    else charsLt as bs

def strLtB (a b : String) : Bool := charsLt a.toList b.toList

/-- Spec-side notion for C9 ("most-recently-updated remaining thread"): a
thread whose `updatedAt` is maximal. -/
def specMostRecentlyUpdated (threads : List ChatThread) : Option ChatThread :=
  threads.foldl (fun acc t =>
    match acc with
    | none => some t
    | some a => if strLtB a.updatedAt t.updatedAt then some t else some a) none

/-! ## SuggestionEngine (src/hooks/use-suggested-queries.ts) -/

/-- The mutable refs and UI state of `useSuggestedQueries`, plus the record
last written to the persistent store (`saveToIndexedDB`). -/
structure SugState where
  lastApiCall : Nat
  isGenerating : Bool
  lastContextHash : Option String
  queries : List String
  isLoading : Bool
  error : Option String
  lastUpdated : Option String
  saved : Option (List String × String)

def sugInit : SugState :=
  { lastApiCall := 0, isGenerating := false, lastContextHash := none, queries := [],
    isLoading := false, error := none, lastUpdated := none, saved := none }

def roleStr : Role → String
  | Role.user => "user"
  | Role.assistant => "assistant"

def joinWith (sep : String) : List String → String
  | [] => ""
  | [x] => x
  | x :: xs => x ++ sep ++ joinWith sep xs

/-- `computeContextHash`: a 32-bit rolling hash over the UTF-16 code units of
the `role:content` pairs of the last 8 messages, rendered in hex. -/
def computeContextHash (messages : List ChatMsg) : String :=
  let slice := messages.drop (messages.length - 8)
  let base := joinWith "|" (slice.map (fun m => roleStr m.role ++ ":" ++ m.content))
  let h := (utf16Units base).foldl (fun h c => (h * 31 + c) % 4294967296) 0
  String.mk (Nat.toDigits 16 h)

/-- `lastUser?.content || ''` after `[...messages].reverse().find(...)`. -/
def lastContentByRole (messages : List ChatMsg) (r : Role) : String :=
  match messages.reverse.find? (fun m => m.role == r) with
  | some m => m.content
  | none => ""

/-- The keyword-probe source text: last assistant content, a space, last user
content, lower-cased. -/
def heuristicSource (messages : List ChatMsg) : String :=
  jsToLower (lastContentByRole messages Role.assistant ++ " " ++ lastContentByRole messages Role.user)

/-- The in-band heuristic used when the backend succeeds but yields zero
usable strings (lines 172-184). -/
def clientHeuristic (messages : List ChatMsg) : List String :=
  let lower := heuristicSource messages
  let h1 :=
    if strIncludes lower "onion" || strIncludes lower "प्याज" then
      ["Onion fungal disease prevention now?", "How to improve onion drainage quickly?"]
    else []
  let h2 :=
    if strIncludes lower "weather" || strIncludes lower "मौसम" then
      ["What to prepare first for the coming weather?"]
    else []
  let h := h1 ++ h2
  if h.isEmpty then ["What should I ask next for better advice?"] else h

/-- The catch-block fallback heuristic (lines 200-216). -/
def buildFallback (messages : List ChatMsg) : List String :=
  let lower := heuristicSource messages
  let f1 :=
    if strIncludes lower "प्याज" || strIncludes lower "onion" then
      ["प्याज में अभी कौन सा रोग जोखिम पर है?", "बारिश के बाद प्याज खेत में क्या निरीक्षण करूँ?"]
    else []
  let f2 :=
    if strIncludes lower "मौसम" || strIncludes lower "weather" then
      ["अगले 3 दिनों के मौसम के अनुसार क्या तैयारी करें?"]
    else []
  let f := f1 ++ f2
  if f.isEmpty then
    ["फसल देखभाल का अगला कदम क्या हो सकता है?", "मौजूदा परिस्थितियों में जोखिम कैसे कम करूँ?"]
  else f

/-- Outcome of the `fetch('/api/suggested-queries', ...)` interaction:
the promise rejects (`netError`), or a response arrives with a status and
either a parsed JSON body or a `response.json()` failure. -/
inductive FetchOutcome where
  | netError (msg : String)
  | resp (status : Nat) (body : Except String JVal)

/-- `response.ok`. -/
def isSuccessStatus (st : Nat) : Bool := 200 ≤ st && st ≤ 299

def isFailureOutcome : FetchOutcome → Bool
  | FetchOutcome.netError _ => true
  | FetchOutcome.resp st body =>
    !(isSuccessStatus st) || (match body with | Except.error _ => true | Except.ok _ => false)

/-- The catch block: heuristic fallback queries, error recorded, results
persisted, loading cleared. -/
def fallbackApply (base : SugState) (messages : List ChatMsg) (h nowIso msg : String) : SugState :=
  let fb := (buildFallback messages).take 4
  { base with queries := fb, isLoading := false, error := some msg,
              lastUpdated := some nowIso, saved := some (fb, h) }

/-- The success branch: keep up to 4 usable strings (falling back to the
client heuristic when none survive the filter), persist, clear loading. -/
def successApply (base : SugState) (messages : List ChatMsg) (h nowIso : String)
    (l : List JVal) : SugState :=
  let qs := (l.filterMap (fun q =>
    match q with
    | JVal.jstr s => if jsTrim s = "" then none else some s
    | _ => none)).take 4
  let qs := if qs.isEmpty then (clientHeuristic messages).take 4 else qs
  { base with queries := qs, isLoading := false, error := none,
              lastUpdated := some nowIso, saved := some (qs, h) }

/-- The `data.error || 'Malformed suggestions response'` message. -/
def malformedMsg (data : JVal) : String :=
  match getField data "error" with
  | some e => if truthy e then jsShow e else "Malformed suggestions response"
  | none => "Malformed suggestions response"

/-- The body of `coreGenerate` past the guards: mark in-flight, record the
call time, optimistically store the context hash, perform the call, and fold
the `finally` (the in-flight flag is always cleared on completion). -/
def runGeneration (s : SugState) (messages : List ChatMsg) (h : String) (now : Nat)
    (nowIso : String) (out : FetchOutcome) : SugState :=
  let base := { s with isGenerating := false, isLoading := true, error := none,
                       lastApiCall := now, lastContextHash := some h }
  match out with
  | FetchOutcome.netError m => fallbackApply base messages h nowIso m
  | FetchOutcome.resp st body =>
    if !(isSuccessStatus st) then
      fallbackApply base messages h nowIso
        (if st = 429 then "Too many requests. Please wait before generating new suggestions."
         else "HTTP error! status: " ++ toString st)
    else
      match body with
      | Except.error m => fallbackApply base messages h nowIso m
      | Except.ok data =>
        match getField data "suggestedQueries" with
        | some (JVal.jarr l) =>
          if fieldTruthy data "success" then successApply base messages h nowIso l
          else fallbackApply base messages h nowIso (malformedMsg data)
        | _ => fallbackApply base messages h nowIso (malformedMsg data)

/-- `coreGenerate(messages, threadId, force)`.  Returns the state after the
call settles and whether an outbound request was dispatched.  The guard
clauses mirror the source order; each skipped call leaves the state
untouched (only logging happens there). -/
def coreGenerate (s : SugState) (messages : List ChatMsg) (force : Bool) (now : Nat)
    (nowIso : String) (out : FetchOutcome) : SugState × Bool :=
  match messages with
  | [] => ({ s with queries := [], error := none }, false)
  | _ :: _ =>
    let h := computeContextHash messages
    let contextUnchanged : Bool := s.lastContextHash == some h
    let tooSoon : Bool := now - s.lastApiCall < 8000
    let notEnough : Bool := (messages.filter (fun m => m.role == Role.assistant)).length == 0
    if !force then
      if contextUnchanged then (s, false)
      else if tooSoon then (s, false)
      else if s.isGenerating then (s, false)
      else if notEnough then (s, false)
      else (runGeneration s messages h now nowIso out, true)
    else if s.isGenerating then (s, false)
    else (runGeneration s messages h now nowIso out, true)

/-- The synchronous part of `forceGenerateSuggestedQueries`: reset the
in-flight and rate-limit guards. -/
def forceReset (s : SugState) : SugState :=
  { s with isGenerating := false, lastApiCall := 0 }

/-- `forceGenerateSuggestedQueries`: reset the guards, then (after a 300 ms
timeout, modelled as the forced call running at `now` — possibly while an
earlier generation is still awaiting its fetch) run the core with
`force = true` when messages exist. -/
def forceGenerateRun (s : SugState) (messages : List ChatMsg) (now : Nat)
    (nowIso : String) (out : FetchOutcome) : SugState × Bool :=
  let s0 := forceReset s
  match messages with
  | [] => (s0, false)
  | _ :: _ => coreGenerate s0 messages true now nowIso out

/-! ## Derived stream-protocol notions used by the theorems -/

/-- The `toolCallId` a line would append as a new `ToolCall` id: non-empty
exactly for a parsable `b` line with truthy `toolCallId` and `toolName`. -/
def bPayloadIds (tag : String) (p : JVal) : List JVal :=
  if tag = "b" then
    match getField p "toolCallId", getField p "toolName" with
    | some cid, some tn => if truthy cid && truthy tn then [cid] else []
    | _, _ => []
  else []

def bIdOf (line : String) : List JVal :=
  match lineTagPayload line with
  | some (t, p) => bPayloadIds t p
  | none => []

/-- All tool-call ids introduced by the `b` lines of a stream prefix. -/
def bLineIds (lines : List String) : List JVal :=
  lines.flatMap bIdOf

/-! ## Concrete fixtures for the claims -/

def mkTextMsg (r : Role) (c : String) : ChatMsg :=
  { role := r, content := c, parts := [MsgPart.text c] }

/-- C2 fixture: materialize a thread from its first message, then clear it
(the sequence `updateCurrentThread`, `clearCurrentThread`). -/
def c2AfterClear : ThreadsState :=
  clearCurrentThread
    (updateCurrentThread threadsInit [mkTextMsg Role.user "hello farm"]
      "thread-1" "2024-01-01T00:00:00.000Z")
    "2024-01-01T00:01:00.000Z"

/-- C9 fixture: three threads created in order A, B, C (list order [C, B, A]),
then A is updated last (making it the most-recently-updated), and C is made
current again. -/
def c9Setup : ThreadsState :=
  let s1 := updateCurrentThread threadsInit [mkTextMsg Role.user "about onions"]
    "idA" "2024-01-01T00:00:00.000Z"
  let s2 := createNewThread s1
  let s3 := updateCurrentThread s2 [mkTextMsg Role.user "about wheat"]
    "idB" "2024-01-02T00:00:00.000Z"
  let s4 := createNewThread s3
  let s5 := updateCurrentThread s4 [mkTextMsg Role.user "about rice"]
    "idC" "2024-01-03T00:00:00.000Z"
  let s6 := (switchToThread s5 "idA").1
  let s7 := updateCurrentThread s6
    [mkTextMsg Role.user "about onions", mkTextMsg Role.assistant "use fungicide"]
    "unused-id" "2024-01-05T00:00:00.000Z"
  (switchToThread s7 "idC").1

def c9WitThread : ChatThread :=
  { id := "t1", title := "hello", messages := [mkTextMsg Role.user "hello"],
    createdAt := "2024-01-01T00:00:00.000Z", updatedAt := "2024-01-01T00:00:00.000Z" }

def c9WitState : ThreadsState :=
  { currentThreadId := "t1", chatThreads := [c9WitThread],
    showThreadsList := false, isPendingNewThread := false }

def c8Pre : List String := ["b:\x7b\"toolCallId\":\"1\",\"toolName\":\"weatherTool\"\x7d"]
def c8Line : String := "a:\x7b\"toolCallId\":\"2\",\"result\":\"r\"\x7d"
def c8Payload : JVal := JVal.jobj [("toolCallId", JVal.jstr "2"), ("result", JVal.jstr "r")]

def c10Pre : List String := ["b:\x7b\"toolCallId\":\"1\",\"toolName\":\"weatherTool\"\x7d"]
def c10Line : String := "a:\x7b\"toolCallId\":\"1\",\"result\":null\x7d"
def c10Payload : JVal := JVal.jobj [("toolCallId", JVal.jstr "1"), ("result", JVal.jnull)]

def c5Msgs : List ChatMsg :=
  [mkTextMsg Role.user "namaste", mkTextMsg Role.assistant "hello farmer"]

def c6Msgs : List ChatMsg :=
  [mkTextMsg Role.user "when to sow wheat", mkTextMsg Role.assistant "in november"]

def c7Msgs : List ChatMsg :=
  [mkTextMsg Role.user "rain soon?", mkTextMsg Role.assistant "likely tomorrow"]

/-- C7 fixture: the state of the hook while a generation is awaiting its
fetch (the in-flight flag is set; the pending generation's completion step
has not yet run). -/
def c7InFlight : SugState :=
  { sugInit with isGenerating := true, isLoading := true, lastApiCall := 9000,
                 lastContextHash := some (computeContextHash c7Msgs) }

/-! ## Helper lemmas -/

theorem map_updateFirst (p : α → Bool) (f : α → α) (g : α → β) (hg : ∀ a, g (f a) = g a) :
    ∀ l : List α, (updateFirst p f l).map g = l.map g
  | [] => rfl
  | x :: xs => by
    unfold updateFirst
    by_cases hx : p x
    · simp [hx, hg]
    · simp [hx, map_updateFirst p f g hg xs]

theorem applyTag_falsy_result (s : PState) (p rv : JVal)
    (hres : getField p "result" = some rv) (hfalsy : truthy rv = false) :
    applyTag s "a" p = s := by
  simp only [applyTag, reduceIte, String.reduceEq, hres]
  cases hcid : getField p "toolCallId" with
  | none => rfl
  | some cid => simp [hfalsy]

theorem applyTag_unknown_id (s : PState) (tag : String) (p xv : JVal)
    (htag : tag = "9" ∨ tag = "a")
    (hid : getField p "toolCallId" = some xv)
    (hfind : s.toolCalls.find? (fun t => jsEq t.id xv) = none) :
    applyTag s tag p = s := by
  rcases htag with h | h
  · subst h
    simp only [applyTag, reduceIte, String.reduceEq, hid]
    cases hargs : getField p "args" with
    | none => rfl
    | some av =>
      by_cases htr : truthy xv && truthy av
      · simp [htr, hfind]
      · simp [htr]
  · subst h
    simp only [applyTag, reduceIte, String.reduceEq, hid]
    cases hargs : getField p "result" with
    | none => rfl
    | some av =>
      by_cases htr : truthy xv && truthy av
      · simp [htr, hfind]
      · simp [htr]

theorem idsMap_applyTag (s : PState) (tag : String) (p : JVal) :
    (applyTag s tag p).toolCalls.map (fun t => t.id)
      = s.toolCalls.map (fun t => t.id) ++ bPayloadIds tag p := by
  unfold applyTag bPayloadIds
  repeat' split
  all_goals simp_all [map_updateFirst]

theorem idsMap_processLine (s : PState) (line : String) :
    (processLine s line).toolCalls.map (fun t => t.id)
      = s.toolCalls.map (fun t => t.id) ++ bIdOf line := by
  unfold processLine bIdOf
  cases h : lineTagPayload line with
  | none => simp
  | some tp => exact idsMap_applyTag s tp.1 tp.2

/-- Every tool-call id in the parser state after a stream prefix was
introduced by one of its `b` lines. -/
theorem idsMap_processLines (lines : List String) : ∀ s : PState,
    (processLines s lines).toolCalls.map (fun t => t.id)
      = s.toolCalls.map (fun t => t.id) ++ bLineIds lines := by
  induction lines with
  | nil => intro s; simp [processLines, bLineIds]
  | cons l ls ih =>
    intro s
    have h1 : processLines s (l :: ls) = processLines (processLine s l) ls := rfl
    rw [h1, ih, idsMap_processLine]
    simp [bLineIds]

theorem coreGenerate_run_eq (s : SugState) (messages : List ChatMsg) (force : Bool)
    (now : Nat) (nowIso : String) (out : FetchOutcome)
    (h : (coreGenerate s messages force now nowIso out).2 = true) :
    (coreGenerate s messages force now nowIso out).1
      = runGeneration s messages (computeContextHash messages) now nowIso out := by
  cases messages with
  | nil => simp [coreGenerate] at h
  | cons m ms =>
    simp only [coreGenerate] at h ⊢
    split_ifs at h ⊢ <;> simp_all

/-- `runGeneration` always leaves the optimistically-stored context hash in
place (it is set before the fetch and never reverted). -/
theorem runGeneration_hash (s : SugState) (messages : List ChatMsg) (h : String)
    (now : Nat) (nowIso : String) (out : FetchOutcome) :
    (runGeneration s messages h now nowIso out).lastContextHash = some h := by
  unfold runGeneration fallbackApply successApply
  repeat' split
  all_goals rfl

theorem runGeneration_queries_fail (s : SugState) (messages : List ChatMsg) (h : String)
    (now : Nat) (nowIso : String) (out : FetchOutcome)
    (hfail : isFailureOutcome out = true) :
    (runGeneration s messages h now nowIso out).queries = (buildFallback messages).take 4 := by
  unfold runGeneration isFailureOutcome at *
  cases out with
  | netError m => rfl
  | resp st body =>
    by_cases hst : isSuccessStatus st = true
    · simp only [hst, Bool.not_true, Bool.false_or] at hfail
      simp only [hst, Bool.not_true, Bool.false_eq_true, if_false]
      cases body with
      | error m => rfl
      | ok data => simp at hfail
    · have hst' : isSuccessStatus st = false := by simpa using hst
      simp only [hst', Bool.not_false, if_true]
      rfl

/-- The catch-block heuristic always yields between 1 and 3 non-empty
strings (2 defaults, or the keyword-selected subsets). -/
theorem buildFallback_facts (messages : List ChatMsg) :
    1 ≤ (buildFallback messages).length ∧ (buildFallback messages).length ≤ 3 ∧
    ∀ x ∈ buildFallback messages, x ≠ "" := by
  unfold buildFallback
  by_cases h1 : (strIncludes (heuristicSource messages) "प्याज"
      || strIncludes (heuristicSource messages) "onion") = true <;>
    by_cases h2 : (strIncludes (heuristicSource messages) "मौसम"
        || strIncludes (heuristicSource messages) "weather") = true <;>
      simp [h1, h2]

/-! ## Claims -/

/-- C1: the claim states that feeding the same logical byte sequence split at
any chunk boundary yields the same final StreamingState and assembled
Message as feeding it unsplit.  The code splits each chunk on newlines with
no partial-line buffer carried across reads, so a boundary inside a line
drops that line: the valid one-line stream `0:"ab"` yields finalResponse
`"ab"` (and an assembled assistant message) unsplit, but the same bytes
delivered as the two chunks `0:"a` and `b"` yield finalResponse `""` and no
message — both fragments fail to parse and are skipped. -/
theorem c1_split_line_changes_state :
    ("0:\"a" ++ "b\"" = "0:\"ab\"") ∧
    (processStream ["0:\"ab\""]).finalResponse = "ab" ∧
    (processStream ["0:\"a", "b\""]).finalResponse = "" ∧
    (assembledMessage (processStream ["0:\"ab\""])).isSome = true ∧
    (assembledMessage (processStream ["0:\"a", "b\""])).isSome = false := by
  refine ⟨rfl, ?_, ?_, ?_, ?_⟩ <;> decide

/-- C2: the claim states that a thread with zero messages is never written
to the durable threads collection.  The persist effect writes the entire
`chatThreads` array (unfiltered) whenever it is non-empty, and
`clearCurrentThread` empties the current thread's messages in place: after
materializing a thread and clearing it, the write that fires contains a
thread whose `messages` is empty. -/
theorem c2_empty_thread_persisted :
    (persistWrite c2AfterClear.chatThreads).isSome = true ∧
    ((persistWrite c2AfterClear.chatThreads).getD []).any (fun t => t.messages.isEmpty) = true := by
  decide

/-- C3 counterexample: the claim states that a read failure mid-stream still
appends a best-effort assistant message assembled from the partial data.  At
the concrete stream chunk `0:"hi"` followed by a read failure, the status is
set to `error` and the accumulated `finalResponse` is `"hi"`, yet no
assistant message is appended — the assembly block sits inside the `try`
after the read loop and is skipped when the loop throws. -/
theorem c3_counterexample :
    (streamTurn ["0:\"hi\""] StreamEnd.failed).1 = Status.error ∧
    (streamTurn ["0:\"hi\""] StreamEnd.failed).2.1.finalResponse = "hi" ∧
    (streamTurn ["0:\"hi\""] StreamEnd.failed).2.2 = none :=
  ⟨by decide, by decide, rfl⟩

/-- C3 (amended): if a network-level read failure occurs partway through
consuming the chat stream, `sendMessage` sets the status to `error` and
discards the partial `finalResponse`/`toolCalls` accumulated so far — no
assistant message is appended on that path. -/
theorem c3_error_discards_partial (chunks : List String) :
    (streamTurn chunks StreamEnd.failed).1 = Status.error ∧
    (streamTurn chunks StreamEnd.failed).2.2 = none :=
  ⟨rfl, rfl⟩

/-- C4 counterexample: the claim states that a send while the status is
`submitted` or `streaming` is a no-op.  With status `submitted` and
non-empty input, `handleSubmit`'s guard (`status !== 'streaming'`) passes
and a second send is dispatched. -/
theorem c4_counterexample : handleSubmitDispatches "hi" [] Status.submitted = true := by decide

/-- C4 (amended): while the status is `streaming`, invoking the send entry
point is a no-op — the second send is not dispatched.  (The guard does not
cover the `submitted` window between dispatch and the first response
byte.) -/
theorem c4_streaming_send_noop (input : String) (imgs : List ImageFile) :
    handleSubmitDispatches input imgs Status.streaming = false := by
  simp [handleSubmitDispatches, show (Status.streaming == Status.streaming) = true from rfl]

/-- C5: for every non-empty message history, when the suggestion request is
actually dispatched and the backend interaction fails (network error,
non-2xx status, or a body that fails to parse), `coreGenerate` settles with
the deterministic keyword-heuristic fallback: between 1 and 4 non-empty
strings.  No exception escapes (the model is total; the source wraps the
fallback in its own catch and clears the in-flight flag in `finally`). -/
theorem c5_failure_fallback (s : SugState) (messages : List ChatMsg) (force : Bool)
    (now : Nat) (nowIso : String) (out : FetchOutcome)
    (hne : messages ≠ [])
    (hrun : (coreGenerate s messages force now nowIso out).2 = true)
    (hfail : isFailureOutcome out = true) :
    (coreGenerate s messages force now nowIso out).1.queries = (buildFallback messages).take 4 ∧
    1 ≤ (coreGenerate s messages force now nowIso out).1.queries.length ∧
    (coreGenerate s messages force now nowIso out).1.queries.length ≤ 4 ∧
    ∀ x ∈ (coreGenerate s messages force now nowIso out).1.queries, x ≠ "" := by
  have heq := coreGenerate_run_eq s messages force now nowIso out hrun
  have hq := runGeneration_queries_fail s messages (computeContextHash messages) now nowIso out hfail
  obtain ⟨hl1, hl3, hmem⟩ := buildFallback_facts messages
  have htake : (buildFallback messages).take 4 = buildFallback messages :=
    List.take_of_length_le (le_trans hl3 (by norm_num))
  refine ⟨by rw [heq, hq], ?_, ?_, ?_⟩
  · rw [heq, hq, htake]; exact hl1
  · rw [heq, hq, htake]; exact le_trans hl3 (by norm_num)
  · rw [heq, hq, htake]; exact hmem

/-- C5 witness: at a concrete two-message history with a failing network
call that passes every guard, the dispatch happens and the fallback facts
hold. -/
theorem c5_witness :
    ((coreGenerate sugInit c5Msgs false 9000 "2024-01-01T00:00:09.000Z"
        (FetchOutcome.netError "offline")).2 = true) ∧
    ((coreGenerate sugInit c5Msgs false 9000 "2024-01-01T00:00:09.000Z"
        (FetchOutcome.netError "offline")).1.queries = (buildFallback c5Msgs).take 4 ∧
     1 ≤ (coreGenerate sugInit c5Msgs false 9000 "2024-01-01T00:00:09.000Z"
        (FetchOutcome.netError "offline")).1.queries.length ∧
     (coreGenerate sugInit c5Msgs false 9000 "2024-01-01T00:00:09.000Z"
        (FetchOutcome.netError "offline")).1.queries.length ≤ 4 ∧
     ∀ x ∈ (coreGenerate sugInit c5Msgs false 9000 "2024-01-01T00:00:09.000Z"
        (FetchOutcome.netError "offline")).1.queries, x ≠ "") :=
  ⟨by decide,
    c5_failure_fallback sugInit c5Msgs false 9000 "2024-01-01T00:00:09.000Z"
      (FetchOutcome.netError "offline") (by simp [c5Msgs]) (by decide) rfl⟩

/-- C6: two non-forced calls to `coreGenerate` with identical message
history produce exactly one outbound request: if the first call dispatched,
the second (here within the 8-second cooldown window) returns without
fetching — the context hash stored optimistically by the first call makes
the `contextUnchanged` guard fire. -/
theorem c6_cooldown_one_request (s : SugState) (messages : List ChatMsg)
    (now1 now2 : Nat) (nowIso1 nowIso2 : String) (out1 out2 : FetchOutcome)
    (h1 : (coreGenerate s messages false now1 nowIso1 out1).2 = true)
    (hwin : now2 - now1 < 8000) :
    (coreGenerate (coreGenerate s messages false now1 nowIso1 out1).1
        messages false now2 nowIso2 out2).2 = false := by
  cases messages with
  | nil => simp [coreGenerate] at h1
  | cons m ms =>
    have heq := coreGenerate_run_eq s (m :: ms) false now1 nowIso1 out1 h1
    rw [heq]
    have hh := runGeneration_hash s (m :: ms) (computeContextHash (m :: ms)) now1 nowIso1 out1
    simp [coreGenerate, hh]

/-- C6 witness: a concrete first call at 9000 ms dispatches; the second call
600 ms later with the same history does not. -/
theorem c6_witness :
    ((coreGenerate sugInit c6Msgs false 9000 "2024-01-01T00:00:09.000Z"
        (FetchOutcome.netError "x")).2 = true) ∧
    (9600 - 9000 < 8000) ∧
    ((coreGenerate
        (coreGenerate sugInit c6Msgs false 9000 "2024-01-01T00:00:09.000Z"
          (FetchOutcome.netError "x")).1
        c6Msgs false 9600 "2024-01-01T00:00:09.600Z" (FetchOutcome.netError "y")).2 = false) :=
  ⟨by decide, by decide,
    c6_cooldown_one_request sugInit c6Msgs 9000 9600 "2024-01-01T00:00:09.000Z"
      "2024-01-01T00:00:09.600Z" (FetchOutcome.netError "x") (FetchOutcome.netError "y")
      (by decide) (by decide)⟩

/-- C7 counterexample: the claim states that the forceGenerate variant never
starts a second concurrent generation.  From a state with a generation in
flight (`isGenerating = true`, its completion step not yet run),
`forceGenerateSuggestedQueries` clears the in-flight flag before its delayed
forced call, so that call dispatches a second request while the first is
still pending. -/
theorem c7_counterexample :
    c7InFlight.isGenerating = true ∧
    (forceGenerateRun c7InFlight c7Msgs 9300 "2024-01-01T00:00:09.300Z"
        (FetchOutcome.netError "slow network")).2 = true :=
  ⟨rfl, by decide⟩

/-- C7 (amended): invoking `coreGenerate` itself with `force = true` while a
generation is in flight is a no-op (the concurrency guard holds for direct
forced calls); the `forceGenerate` wrapper however resets the in-flight flag
first, so it can start a second concurrent generation. -/
theorem c7_force_concurrent_guard (s : SugState) (messages : List ChatMsg)
    (now : Nat) (nowIso : String) (out : FetchOutcome)
    (h : s.isGenerating = true) :
    (coreGenerate s messages true now nowIso out).2 = false := by
  cases messages with
  | nil => rfl
  | cons m ms => simp [coreGenerate, h]

/-- C7 witness: at the concrete in-flight state, a direct forced
`coreGenerate` call does not dispatch. -/
theorem c7_witness :
    c7InFlight.isGenerating = true ∧
    (coreGenerate c7InFlight c7Msgs true 9300 "2024-01-01T00:00:09.300Z"
        (FetchOutcome.netError "slow network")).2 = false :=
  ⟨rfl, c7_force_concurrent_guard c7InFlight c7Msgs 9300 "2024-01-01T00:00:09.300Z"
    (FetchOutcome.netError "slow network") rfl⟩

/-- C8: appending a `9` or `a` line whose `toolCallId` matches no id
introduced by a prior `b` line leaves every existing ToolCall unchanged (the
parser state's tool-call list is exactly preserved), and — the model being
total — processing cannot throw: the line is ignored. -/
theorem c8_unknown_id_line_ignored (pre : List String) (line tag : String) (p xv : JVal)
    (hline : lineTagPayload line = some (tag, p))
    (htag : tag = "9" ∨ tag = "a")
    (hid : getField p "toolCallId" = some xv)
    (hunknown : ∀ y ∈ bLineIds pre, jsEq y xv = false) :
    (processLines initPState (pre ++ [line])).toolCalls
      = (processLines initPState pre).toolCalls := by
  have hfold : processLines initPState (pre ++ [line])
      = processLine (processLines initPState pre) line := by
    simp [processLines, List.foldl_append]
  have hids : (processLines initPState pre).toolCalls.map (fun t => t.id) = bLineIds pre := by
    simpa [initPState] using idsMap_processLines pre initPState
  have hfind : (processLines initPState pre).toolCalls.find? (fun t => jsEq t.id xv) = none := by
    apply List.find?_eq_none.mpr
    intro t ht
    have hmem : t.id ∈ bLineIds pre := by
      rw [← hids]; exact List.mem_map_of_mem _ ht
    simp [hunknown _ hmem]
  rw [hfold, processLine, hline]
  show (applyTag (processLines initPState pre) tag p).toolCalls
      = (processLines initPState pre).toolCalls
  rw [applyTag_unknown_id _ _ _ _ htag hid hfind]

/-- C8 witness: after a `b` line introducing id "1", an `a` line carrying id
"2" leaves the tool-call list unchanged. -/
theorem c8_witness :
    lineTagPayload c8Line = some ("a", c8Payload) ∧
    getField c8Payload "toolCallId" = some (JVal.jstr "2") ∧
    (∀ y ∈ bLineIds c8Pre, jsEq y (JVal.jstr "2") = false) ∧
    (processLines initPState (c8Pre ++ [c8Line])).toolCalls
      = (processLines initPState c8Pre).toolCalls :=
  ⟨rfl, rfl, by decide,
    c8_unknown_id_line_ignored c8Pre c8Line "a" c8Payload (JVal.jstr "2")
      rfl (Or.inr rfl) rfl (by decide)⟩

/-- C9 counterexample: the claim states that deleting the current thread
promotes the most-recently-updated remaining thread.  In the reachable state
`c9Setup` (threads [C, B, A] with A updated last, C current), deleting C
returns and promotes B — the head of the remaining list — although the
most-recently-updated remaining thread is A. -/
theorem c9_counterexample :
    c9Setup.currentThreadId = "idC" ∧
    ((deleteThread c9Setup "idC").2.map (fun t => t.id) = some "idB") ∧
    ((deleteThread c9Setup "idC").1.currentThreadId = "idB") ∧
    ((specMostRecentlyUpdated (deleteThread c9Setup "idC").1.chatThreads).map (fun t => t.id)
      = some "idA") ∧
    ¬ ("idB" : String) = "idA" := by decide

/-- C9 (amended): `deleteThread` removes the given thread from the
collection; if the deleted thread was current and at least one thread
remains, the new current thread (and the returned thread) is the first
remaining thread in stored order (newest-created first, not
most-recently-updated); if none remain it returns null and re-enters the
pending-empty state. -/
theorem c9_delete_resolves_head (s : ThreadsState) (tid : String)
    (hcur : tid = s.currentThreadId) :
    (deleteThread s tid).1.chatThreads = s.chatThreads.filter (fun t => t.id != tid) ∧
    (match s.chatThreads.filter (fun t => t.id != tid) with
     | t :: _ =>
       (deleteThread s tid).2 = some t ∧
       (deleteThread s tid).1.currentThreadId = t.id ∧
       (deleteThread s tid).1.isPendingNewThread = false
     | [] =>
       (deleteThread s tid).2 = none ∧
       (deleteThread s tid).1.currentThreadId = "" ∧
       (deleteThread s tid).1.isPendingNewThread = true) := by
  unfold deleteThread
  rw [if_pos hcur]
  cases hf : s.chatThreads.filter (fun t => t.id != tid) with
  | nil => simp [hf]
  | cons t ts => simp [hf]

/-- C9 witness: deleting the only thread, which is current, empties the
collection and re-enters the pending state. -/
theorem c9_witness :
    ("t1" : String) = c9WitState.currentThreadId ∧
    ((deleteThread c9WitState "t1").1.chatThreads
        = c9WitState.chatThreads.filter (fun t => t.id != "t1") ∧
     (match c9WitState.chatThreads.filter (fun t => t.id != "t1") with
      | t :: _ =>
        (deleteThread c9WitState "t1").2 = some t ∧
        (deleteThread c9WitState "t1").1.currentThreadId = t.id ∧
        (deleteThread c9WitState "t1").1.isPendingNewThread = false
      | [] =>
        (deleteThread c9WitState "t1").2 = none ∧
        (deleteThread c9WitState "t1").1.currentThreadId = "" ∧
        (deleteThread c9WitState "t1").1.isPendingNewThread = true)) :=
  ⟨rfl, c9_delete_resolves_head c9WitState "t1" rfl⟩

/-- C10: an `a` line whose `result` field holds a falsy JSON value (null, 0,
empty string, or false) leaves the parser state entirely unchanged, wherever
it occurs in a stream — in particular, a ToolCall introduced by a prior `b`
line with the same id keeps status `pending` and records no result: the
completed transition happens only for truthy results. -/
theorem c10_falsy_result_line_ignored (pre : List String) (line : String) (p rv : JVal)
    (hline : lineTagPayload line = some ("a", p))
    (hres : getField p "result" = some rv)
    (hfalsy : truthy rv = false) :
    processLines initPState (pre ++ [line]) = processLines initPState pre := by
  have hfold : processLines initPState (pre ++ [line])
      = processLine (processLines initPState pre) line := by
    simp [processLines, List.foldl_append]
  rw [hfold, processLine, hline]
  show applyTag (processLines initPState pre) "a" p = processLines initPState pre
  exact applyTag_falsy_result _ _ _ hres hfalsy

/-- C10 witness: `b` introducing id "1" (pending, no result) followed by an
`a` for id "1" with `result: null` leaves the state — hence the pending
status and absent result — unchanged. -/
theorem c10_witness :
    lineTagPayload c10Line = some ("a", c10Payload) ∧
    truthy JVal.jnull = false ∧
    (processLines initPState c10Pre).toolCalls.map (fun t => t.status == ToolStatus.pending) = [true] ∧
    (processLines initPState c10Pre).toolCalls.map (fun t => t.result.isSome) = [false] ∧
    processLines initPState (c10Pre ++ [c10Line]) = processLines initPState c10Pre :=
  ⟨rfl, rfl, by decide, by decide,
    c10_falsy_result_line_ignored c10Pre c10Line c10Payload JVal.jnull rfl rfl rfl⟩
